import Mathlib

set_option autoImplicit false

/-!
Shallow embedding of the namespace-manager repository (Go).

Embedded code:
- internal/kube/namespaces.go: CreateNamespace, DeleteNamespace, ListNamespaces
  and the NamespaceInfo view type;
- internal/httpserver/handlers.go: the request-validation part of
  HandleCreateNamespaceRequest (lines 42-65, after JSON decoding).

Modelling conventions:
- time.Time and time.Duration values are Int nanoseconds since an arbitrary
  epoch (a Duration is already int64 nanoseconds in Go; time.Time differences
  are taken at nanosecond precision by time.Until);
- RFC 3339 formatting and parsing come from Go's standard library, outside
  this repository, so they are abstract parameters (format : Int → String,
  parse : String → Option Int) of the embedded operations;
- the Kubernetes control-plane gateway (clientset calls) is a parameter:
  list results, create results and per-poll fetch results are supplied as
  values of Except GatewayError;
- Go maps of annotations are association lists; indexing a missing key
  yields the empty string exactly as in Go;
- int(remaining.Hours()) is modelled as exact integer division of the
  nanosecond remainder by the nanoseconds of one hour (for a positive
  remainder, Go's float truncation and floor division agree up to float
  rounding, which is immaterial at the granularity the spec states).
-/

namespace NamespaceManager

/-- Failure kinds of the control-plane gateway, distinguishing the kinds the
spec names (notFound, conflict, transport) plus the context-deadline error
produced by client-go when a call is issued on an expired context. -/
inductive GatewayError where
  | notFound
  | conflict
  | transport
  | deadlineExceeded
  | other (msg : String)
deriving DecidableEq

/-- Nanoseconds in one hour (time.Hour as a Go Duration). -/
def nsPerHour : Int := 3600000000000

/-- A namespace record as the gateway returns it: corev1.Namespace restricted
to the fields the manager reads (ObjectMeta.Name, ObjectMeta.Annotations,
ObjectMeta.CreationTimestamp). -/
structure K8sNamespace where
  name : String
  annotations : List (String × String)
  creationTimestamp : Int
deriving DecidableEq

/-- Go map indexing annotations[k]: the value, or the empty string when the
key is absent. -/
def getAnn (annotations : List (String × String)) (k : String) : String :=
  (annotations.lookup k).getD ""

/-- NamespaceInfo from internal/kube/namespaces.go lines 11-18, with the two
time fields as Int nanoseconds. -/
structure NamespaceInfo where
  name : String
  owner : String
  team : String
  createdAt : Int
  expiresAt : Int
  ttl : Int
deriving DecidableEq

/-- Lines 92-104 of ListNamespaces: from the expires_at string, compute the
pair (expiresAt, ttl). Both start at their zero values; when the string is
non-empty and parses, expiresAt is set, and when additionally the remaining
duration is positive, ttl is set to its whole number of hours (truncated).
On a parse failure Go's time.Parse returns the zero time, so expiresAt stays
at its zero value. -/
def parseExpiry (parse : String → Option Int) (now : Int)
    (expiresAtStr : String) : Int × Int :=
  if expiresAtStr ≠ "" then
    match parse expiresAtStr with
    | some e => if 0 < e - now then (e, (e - now) / nsPerHour) else (e, 0)
    | none => (0, 0)
  else (0, 0)

/-- Lines 81-114 of ListNamespaces, the per-record view construction: extract
the owner, team and expires_at annotations and build the NamespaceInfo. -/
def nsToInfo (parse : String → Option Int) (now : Int)
    (ns : K8sNamespace) : NamespaceInfo :=
  { name := ns.name
    owner := getAnn ns.annotations "owner"
    team := getAnn ns.annotations "team"
    createdAt := ns.creationTimestamp
    expiresAt := (parseExpiry parse now (getAnn ns.annotations "expires_at")).1
    ttl := (parseExpiry parse now (getAnn ns.annotations "expires_at")).2 }

/-- The loop of ListNamespaces (lines 80-117): for each record, skip it when
the owner filter is non-empty and differs from the record's owner
annotations entry, otherwise append its view. -/
def listLoop (parse : String → Option Int) (now : Int) (owner : String) :
    List K8sNamespace → List NamespaceInfo
  | [] => []
  | ns :: rest =>
    if owner ≠ "" ∧ getAnn ns.annotations "owner" ≠ owner then
      listLoop parse now owner rest
    else
      nsToInfo parse now ns :: listLoop parse now owner rest

/-- ListNamespaces (lines 72-120): the gateway list result is either a
failure, returned as-is with no views (lines 73-76), or the record list,
converted by the loop. -/
def ListNamespaces (parse : String → Option Int) (now : Int) (owner : String)
    (gwList : Except GatewayError (List K8sNamespace)) :
    Except GatewayError (List NamespaceInfo) :=
  match gwList with
  | .error e => .error e
  | .ok _items => .ok (listLoop parse now owner _items)

/-- The single gateway create call CreateNamespace issues: the namespace
object literal of lines 22-31. -/
structure CreateCall where
  name : String
  annotations : List (String × String)
deriving DecidableEq

/-- Reduction of an Int to the signed 64-bit value Go arithmetic wraps to:
the representative in the interval from -(2^63) up to 2^63 - 1 (the two
literals below are 2^63 and 2^64). -/
def wrapInt64 (x : Int) : Int :=
  (x + 9223372036854775808) % 18446744073709551616 - 9223372036854775808

/-- time.Duration(ttlHours) * time.Hour at namespaces.go line 28: a Go
Duration is int64 nanoseconds, so the multiplication wraps at 64 bits. It
equals ttlHours * nsPerHour exactly when that product fits in int64,
i.e. for |ttlHours| ≤ 2562047. -/
def durationOfHours (ttlHours : Int) : Int :=
  wrapInt64 (ttlHours * nsPerHour)

/-- The namespace object built at lines 22-31: the caller's name and exactly
the three annotations entries owner, team and expires_at, the last one the
absolute timestamp now plus the (wrapping) duration of ttlHours hours,
formatted. -/
def createCallOf (format : Int → String) (now : Int) (name : String)
    (ttlHours : Int) (owner team : String) : CreateCall :=
  { name := name
    annotations :=
      [("owner", owner), ("team", team),
       ("expires_at", format (now + durationOfHours ttlHours))] }

/-- CreateNamespace (lines 21-37). The gateway's create endpoint is the
parameter gwCreate; the result records the list of gateway calls issued
together with the returned error value (lines 32-36: the gateway error is
returned unchanged, success returns nil). -/
def CreateNamespace (format : Int → String) (now : Int)
    (gwCreate : CreateCall → Except GatewayError K8sNamespace)
    (name : String) (ttlHours : Int) (owner team : String) :
    List CreateCall × Except GatewayError Unit :=
  let call := createCallOf format now name ttlHours owner team
  match gwCreate call with
  | .error e => ([call], .error e)
  | .ok _ => ([call], .ok ())

/-- Polling interval of the delete confirmation loop, milliseconds
(line 67: time.Sleep(500 * time.Millisecond)). -/
def pollIntervalMs : Nat := 500

/-- Deadline of the delete confirmation context, milliseconds
(line 48: context.WithTimeout(..., 30*time.Second)). -/
def deadlineMs : Nat := 30000

/-- Outcome of DeleteNamespace: nil (deleted), the submit error passed
through, or ctx.Err() from the select branch at lines 61-64. -/
inductive DeleteOutcome where
  | deleted
  | submitFailed (e : GatewayError)
  | confirmTimeout
deriving DecidableEq

/-- The fetch at line 54: Get is called with the 30-second timeout context,
so once the deadline has passed client-go fails the call with a
deadline-exceeded error before reaching the gateway; within the deadline the
gateway answers (get i is the gateway's answer to the i-th poll). -/
def ctxGet (get : Nat → Except GatewayError K8sNamespace) (i t : Nat) :
    Except GatewayError K8sNamespace :=
  if deadlineMs ≤ t then .error .deadlineExceeded else get i

/-- The confirmation loop of lines 52-69, at elapsed time t ms having issued
polls fetches so far: fetch; any fetch failure returns nil (lines 55-58);
otherwise the select inspects the timer (lines 61-68) and either returns
ctx.Err() or sleeps 500 ms and iterates. The loop in the source is
syntactically unbounded; fuel bounds the recursion, and with the fuel
DeleteNamespace passes the zero-fuel default is unreachable because ctxGet
fails by itself once deadlineMs ≤ t (pollFrom_fuel_stable below). -/
def pollFrom (get : Nat → Except GatewayError K8sNamespace) :
    Nat → Nat → Nat → DeleteOutcome × Nat
  | 0, _, polls => (.confirmTimeout, polls)
  | fuel + 1, t, polls =>
    match ctxGet get polls t with
    | .error _ => (.deleted, polls + 1)
    | .ok _ =>
      if deadlineMs ≤ t then (.confirmTimeout, polls + 1)
      else pollFrom get fuel (t + pollIntervalMs) (polls + 1)

/-- Fuel covering every iteration the context allows: one fetch at each of
t = 0, 500, ..., 30000. -/
def pollFuel : Nat := deadlineMs / pollIntervalMs + 1

/-- The behavior of the gateway during one delete execution: the result of
the initial delete call, and the answer the gateway would give to the i-th
confirmation fetch. -/
structure DeleteGateway where
  submit : Except GatewayError Unit
  get : Nat → Except GatewayError K8sNamespace

/-- DeleteNamespace (lines 39-70): submit the delete (lines 41-44, a failure
is returned at once with no fetch issued), then run the confirmation loop.
The second component counts the fetch-by-name calls issued. -/
def DeleteNamespace (gw : DeleteGateway) : DeleteOutcome × Nat :=
  match gw.submit with
  | .error e => (.submitFailed e, 0)
  | .ok _ => pollFrom gw.get pollFuel 0 0

/-- The decoded JSON body of a create request
(internal/httpserver/handlers.go lines 9-14). -/
structure CreateNamespaceRequest where
  name : String
  ttl : Int
  owner : String
  team : String
deriving DecidableEq

/-- What the create handler does after decoding: write a rejection response,
or invoke the manager's create. -/
inductive ShimAction where
  | reject (status : Nat) (body : String)
  | invokeCreate (name : String) (ttl : Int) (owner team : String)
deriving DecidableEq

/-- The validation section of HandleCreateNamespaceRequest (handlers.go
lines 42-65): each check rejects with status 400 (http.StatusBadRequest)
and its message; only a request passing all four reaches
s.kubeClient.CreateNamespace. -/
def HandleCreateNamespaceRequest (req : CreateNamespaceRequest) : ShimAction :=
  if req.name = "" then .reject 400 "Missing required field: name"
  else if req.owner = "" then .reject 400 "Missing required field: owner"
  else if req.team = "" then .reject 400 "Missing required field: team"
  else if req.ttl ≤ 0 then .reject 400 "TTL must be greater than 0"
  else .invokeCreate req.name req.ttl req.owner req.team

/-- A shim action that is a client-error (400) rejection. -/
def ShimAction.isValidationError : ShimAction → Bool
  | .reject s _ => s == 400
  | _ => false

/-! Concrete inputs used by the witnesses. -/

/-- A record owned by alice. -/
def demoAlice : K8sNamespace :=
  ⟨"demo", [("owner", "alice"), ("team", "infra")], 0⟩

/-- A record with no annotations entries at all. -/
def demoNoOwner : K8sNamespace := ⟨"scratch", [], 0⟩

/-- A record carrying only an expires_at annotations entry. -/
def demoExpiry : K8sNamespace :=
  ⟨"demo", [("expires_at", "2025-01-01T02:00:00Z")], 0⟩

/-- A parse function that recognizes nothing. -/
def someParse : String → Option Int := fun _ => none

/-- A parse function recognizing exactly the timestamp of demoExpiry as two
hours (in nanoseconds) past the epoch. -/
def demoParse : String → Option Int :=
  fun s => if s = "2025-01-01T02:00:00Z" then some 7200000000000 else none

/-- A formatting function for witnesses. -/
def demoFormat : Int → String := fun t => toString t

/-- A gateway create endpoint that accepts every call. -/
def demoGwCreate : CreateCall → Except GatewayError K8sNamespace :=
  fun c => .ok ⟨c.name, c.annotations, 0⟩

/-- A delete execution whose submit is rejected. -/
def demoSubmitFail : DeleteGateway :=
  ⟨.error .notFound, fun _ => .error .notFound⟩

/-- A delete execution where the record is gone at the first poll. -/
def demoInstantGoneGw : DeleteGateway := ⟨.ok (), fun _ => .error .notFound⟩

/-- A delete execution where the gateway keeps returning the record on every
poll for the whole window. -/
def demoPersistentGw : DeleteGateway := ⟨.ok (), fun _ => .ok demoAlice⟩

/-- A delete execution where the gateway returns the record twice and then a
transport failure. -/
def demoTransientGw : DeleteGateway :=
  ⟨.ok (), fun j => if j < 2 then .ok demoAlice else .error .transport⟩

/-! Helper lemmas. -/

/-- The view's owner field is the record's owner annotations entry. -/
theorem nsToInfo_owner (parse : String → Option Int) (now : Int)
    (ns : K8sNamespace) :
    (nsToInfo parse now ns).owner = getAnn ns.annotations "owner" := rfl

/-- One unfolding of the confirmation loop. -/
theorem pollFrom_succ (get : Nat → Except GatewayError K8sNamespace)
    (fuel t polls : Nat) :
    pollFrom get (fuel + 1) t polls =
      match ctxGet get polls t with
      | .error _ => (.deleted, polls + 1)
      | .ok _ =>
        if deadlineMs ≤ t then (.confirmTimeout, polls + 1)
        else pollFrom get fuel (t + pollIntervalMs) (polls + 1) := rfl

/-- Fuel beyond what the context allows does not change pollFrom: once
deadlineMs ≤ t + pollIntervalMs * fuel, the run ends before the fuel does,
because ctxGet fails by itself from the deadline on. -/
theorem pollFrom_fuel_stable (get : Nat → Except GatewayError K8sNamespace) :
    ∀ fuel t polls : Nat, deadlineMs ≤ t + pollIntervalMs * fuel →
      pollFrom get (fuel + 1) t polls = pollFrom get (fuel + 1 + 1) t polls := by
  intro fuel
  induction fuel with
  | zero =>
    intro t polls h
    simp only [Nat.mul_zero, Nat.add_zero] at h
    conv_lhs => rw [pollFrom_succ]
    conv_rhs => rw [pollFrom_succ]
    unfold ctxGet
    simp [h]
  | succ fuel ih =>
    intro t polls h
    conv_lhs => rw [pollFrom_succ]
    conv_rhs => rw [pollFrom_succ]
    unfold ctxGet
    by_cases ht : deadlineMs ≤ t
    · simp [ht]
    · rw [if_neg ht]
      cases hget : get polls with
      | error e => rfl
      | ok r =>
        rw [if_neg ht, if_neg ht]
        exact ih (t + pollIntervalMs) (polls + 1) (by
          simp only [pollIntervalMs, deadlineMs] at h ⊢
          omega)

/-! Claim theorems. -/

/-- Claim C4: for every non-empty owner filter f and fixed record set, the
filtered list is exactly the sublist of the unfiltered list whose views carry
owner f, in the same relative order; and the unfiltered list maps every
record to a view, excluding none. -/
theorem list_owner_filter (parse : String → Option Int) (now : Int)
    (items : List K8sNamespace) :
    (∀ f : String, f ≠ "" →
      listLoop parse now f items =
        (listLoop parse now "" items).filter (fun v => v.owner == f)) ∧
    listLoop parse now "" items = items.map (nsToInfo parse now) := by
  constructor
  · intro f hf
    induction items with
    | nil => rfl
    | cons ns rest ih =>
      by_cases h : getAnn ns.annotations "owner" = f
      · simp [listLoop, hf, h, List.filter_cons, nsToInfo_owner, ih]
      · simp [listLoop, hf, h, List.filter_cons, nsToInfo_owner, ih]
  · induction items with
    | nil => rfl
    | cons ns rest ih => simp [listLoop, ih]

/-- Claim C4 witness at a concrete filter and record set. -/
theorem list_owner_filter_witness :
    listLoop someParse 0 "alice" [demoAlice, demoNoOwner] =
      (listLoop someParse 0 "" [demoAlice, demoNoOwner]).filter
        (fun v => v.owner == "alice") ∧
    listLoop someParse 0 "" [demoAlice, demoNoOwner] =
      [demoAlice, demoNoOwner].map (nsToInfo someParse 0) := by
  have h := list_owner_filter someParse 0 [demoAlice, demoNoOwner]
  exact ⟨h.1 "alice" (by decide), h.2⟩

/-- Claim C10: a record with no owner key in its annotations is treated as
owned by the empty string: its view carries an empty owner, the unfiltered
list includes it, and every non-empty filter excludes it. -/
theorem list_missing_owner (parse : String → Option Int) (now : Int)
    (ns : K8sNamespace) (rest : List K8sNamespace)
    (h : ns.annotations.lookup "owner" = none) :
    (nsToInfo parse now ns).owner = "" ∧
    listLoop parse now "" (ns :: rest) =
      nsToInfo parse now ns :: listLoop parse now "" rest ∧
    ∀ f : String, f ≠ "" →
      listLoop parse now f (ns :: rest) = listLoop parse now f rest := by
  have howner : getAnn ns.annotations "owner" = "" := by
    simp [getAnn, h]
  refine ⟨by rw [nsToInfo_owner, howner], by simp [listLoop], ?_⟩
  intro f hf
  simp [listLoop, howner, hf, Ne.symm hf]

/-- Claim C10 witness at a concrete record without an owner key. -/
theorem list_missing_owner_witness :
    (nsToInfo someParse 0 demoNoOwner).owner = "" ∧
    listLoop someParse 0 "" [demoNoOwner, demoAlice] =
      nsToInfo someParse 0 demoNoOwner :: listLoop someParse 0 "" [demoAlice] ∧
    listLoop someParse 0 "alice" [demoNoOwner, demoAlice] =
      listLoop someParse 0 "alice" [demoAlice] := by
  have h := list_missing_owner someParse 0 demoNoOwner [demoAlice] (by decide)
  exact ⟨h.1, h.2.1, h.2.2 "alice" (by decide)⟩

/-- Claim C8: a failing gateway list aborts the whole call for every owner
filter: the failure is returned as-is, and no view sequence is ever
returned in its place. -/
theorem list_gateway_failure (parse : String → Option Int) (now : Int)
    (owner : String) (e : GatewayError) :
    ListNamespaces parse now owner (.error e) = .error e ∧
    ∀ views : List NamespaceInfo,
      ListNamespaces parse now owner (.error e) ≠ .ok views :=
  ⟨rfl, fun _ hc => Except.noConfusion hc⟩

/-- Claim C7: a record whose expires_at entry is absent (the Go map yields
the empty string) or does not parse never fails the list call: its view is
still produced, with a zero-value expiresAt and a zero remaining TTL, and
the unfiltered list includes it. -/
theorem list_missing_expiry (parse : String → Option Int) (now : Int)
    (ns : K8sNamespace)
    (h : getAnn ns.annotations "expires_at" = "" ∨
      parse (getAnn ns.annotations "expires_at") = none) :
    (nsToInfo parse now ns).expiresAt = 0 ∧
    (nsToInfo parse now ns).ttl = 0 ∧
    ∀ rest : List K8sNamespace,
      listLoop parse now "" (ns :: rest) =
        nsToInfo parse now ns :: listLoop parse now "" rest := by
  have hpair :
      parseExpiry parse now (getAnn ns.annotations "expires_at") = (0, 0) := by
    by_cases hs : getAnn ns.annotations "expires_at" = ""
    · simp [parseExpiry, hs]
    · rcases h with h | h
      · exact absurd h hs
      · simp [parseExpiry, hs, h]
  refine ⟨?_, ?_, ?_⟩
  · show (parseExpiry parse now (getAnn ns.annotations "expires_at")).1 = 0
    rw [hpair]
  · show (parseExpiry parse now (getAnn ns.annotations "expires_at")).2 = 0
    rw [hpair]
  · intro rest
    simp [listLoop]

/-- Claim C7 witness at a record with no expires_at entry. -/
theorem list_missing_expiry_witness :
    (nsToInfo someParse 0 demoNoOwner).expiresAt = 0 ∧
    (nsToInfo someParse 0 demoNoOwner).ttl = 0 ∧
    listLoop someParse 0 "" [demoNoOwner] =
      [nsToInfo someParse 0 demoNoOwner] := by
  have h := list_missing_expiry someParse 0 demoNoOwner (Or.inl rfl)
  exact ⟨h.1, h.2.1, h.2.2 []⟩

/-- Claim C3: for a record whose expires_at entry parses to the creation
instant n0 plus N hours, a list call Mns nanoseconds after n0 derives, while
before the expiry (Mns < N hours), a remaining TTL equal to the whole hours
of the remainder — the floor of N minus the elapsed hours — and derives 0 at
the expiry and any time past it. -/
theorem ttl_derivation (parse : String → Option Int) (ns : K8sNamespace)
    (n0 N Mns : Int) (s : String)
    (hs : getAnn ns.annotations "expires_at" = s) (hne : s ≠ "")
    (hp : parse s = some (n0 + N * nsPerHour)) :
    (Mns < N * nsPerHour →
      (nsToInfo parse (n0 + Mns) ns).ttl = (N * nsPerHour - Mns) / nsPerHour) ∧
    (N * nsPerHour ≤ Mns → (nsToInfo parse (n0 + Mns) ns).ttl = 0) := by
  have hrem : n0 + N * nsPerHour - (n0 + Mns) = N * nsPerHour - Mns := by ring
  have hpair :
      parseExpiry parse (n0 + Mns) (getAnn ns.annotations "expires_at") =
        if 0 < N * nsPerHour - Mns
        then (n0 + N * nsPerHour, (N * nsPerHour - Mns) / nsPerHour)
        else (n0 + N * nsPerHour, 0) := by
    rw [hs]
    simp only [parseExpiry, hne, if_pos, hp, hrem]
    split <;> rfl
  constructor
  · intro hlt
    show (parseExpiry parse (n0 + Mns) (getAnn ns.annotations "expires_at")).2 = _
    rw [hpair, if_pos (by omega)]
  · intro hle
    show (parseExpiry parse (n0 + Mns) (getAnn ns.annotations "expires_at")).2 = 0
    rw [hpair, if_neg (by omega)]

/-- Claim C3 witness: a record expiring two hours past the epoch, listed
half an hour in, has one whole remaining hour. -/
theorem ttl_derivation_witness :
    (nsToInfo demoParse (0 + 1800000000000) demoExpiry).ttl =
      (2 * nsPerHour - 1800000000000) / nsPerHour :=
  (ttl_derivation demoParse demoExpiry 0 2 1800000000000 "2025-01-01T02:00:00Z"
      rfl (by decide) (by decide)).1 (by decide)

/-- During confirmation polling, if the fetches at indices 0..k-1 succeed and
the fetch at index k — issued while the deadline context is still live —
fails with any error e, the loop stops right there reporting success. -/
theorem pollFrom_error_at (get : Nat → Except GatewayError K8sNamespace) :
    ∀ (k p fuel : Nat) (e : GatewayError),
      (∀ j, j < k → ∃ r, get (p + j) = Except.ok r) →
      get (p + k) = Except.error e →
      pollIntervalMs * (p + k) < deadlineMs →
      k < fuel →
      pollFrom get fuel (pollIntervalMs * p) p =
        (DeleteOutcome.deleted, p + k + 1) := by
  intro k
  induction k with
  | zero =>
    intro p fuel e _hok herr hk hfuel
    obtain ⟨fuel, rfl⟩ : ∃ f, fuel = f + 1 := ⟨fuel - 1, by omega⟩
    simp only [Nat.add_zero] at herr hk ⊢
    rw [pollFrom_succ]
    unfold ctxGet
    rw [if_neg (by omega), herr]
  | succ k ih =>
    intro p fuel e hok herr hk hfuel
    obtain ⟨fuel, rfl⟩ : ∃ f, fuel = f + 1 := ⟨fuel - 1, by omega⟩
    have ht : ¬ deadlineMs ≤ pollIntervalMs * p := by
      have : pollIntervalMs * p ≤ pollIntervalMs * (p + (k + 1)) :=
        Nat.mul_le_mul_left _ (by omega)
      omega
    rw [pollFrom_succ]
    unfold ctxGet
    rw [if_neg ht]
    obtain ⟨r, hr⟩ := hok 0 (Nat.succ_pos k)
    simp only [Nat.add_zero] at hr
    rw [hr]
    show (if deadlineMs ≤ pollIntervalMs * p then
        (DeleteOutcome.confirmTimeout, p + 1)
      else pollFrom get fuel (pollIntervalMs * p + pollIntervalMs) (p + 1)) =
      (DeleteOutcome.deleted, p + (k + 1) + 1)
    rw [if_neg ht, show pollIntervalMs * p + pollIntervalMs =
      pollIntervalMs * (p + 1) by ring]
    have h2 := ih (p + 1) fuel e
      (fun j hj => by
        have h3 := hok (j + 1) (by omega)
        rwa [show p + (j + 1) = p + 1 + j by omega] at h3)
      (by rwa [show p + 1 + k = p + (k + 1) by omega])
      (by rwa [show p + 1 + k = p + (k + 1) by omega])
      (by omega)
    rw [h2, show p + 1 + k + 1 = p + (k + 1) + 1 by omega]

/-- Claim C2: with a successful submit, a fetch-by-name failure of any kind
during polling — gw.get answers are arbitrary errors, not only notFound —
ends the loop at once with the operation reported deleted. -/
theorem poll_error_confirms (gw : DeleteGateway) (k : Nat) (e : GatewayError)
    (hsub : gw.submit = Except.ok ())
    (hk : pollIntervalMs * k < deadlineMs)
    (hok : ∀ j, j < k → ∃ r, gw.get j = Except.ok r)
    (herr : gw.get k = Except.error e) :
    DeleteNamespace gw = (DeleteOutcome.deleted, k + 1) := by
  unfold DeleteNamespace
  rw [hsub]
  have h := pollFrom_error_at gw.get k 0 pollFuel e
    (fun j hj => by simpa using hok j hj)
    (by simpa using herr)
    (by simpa using hk)
    (by simp only [pollFuel, pollIntervalMs, deadlineMs] at hk ⊢; omega)
  simpa using h

/-- Claim C2 witness: the record is returned twice, then the third fetch
fails with a transport error — not notFound — and delete reports success. -/
theorem poll_error_confirms_witness :
    DeleteNamespace demoTransientGw = (DeleteOutcome.deleted, 3) := by
  have h := poll_error_confirms demoTransientGw 2 GatewayError.transport rfl
    (by decide)
    (fun j hj => ⟨demoAlice, by
      simp only [demoTransientGw]
      rw [if_pos hj]⟩)
    rfl
  exact h

/-- Claim C6: a rejected submit fails the operation at once with the submit
error passed through, and zero fetch-by-name polls are issued. -/
theorem delete_submit_failure (gw : DeleteGateway) (e : GatewayError)
    (h : gw.submit = Except.error e) :
    DeleteNamespace gw = (DeleteOutcome.submitFailed e, 0) := by
  unfold DeleteNamespace
  rw [h]

/-- Claim C6 witness at a gateway rejecting the delete call. -/
theorem delete_submit_failure_witness :
    DeleteNamespace demoSubmitFail =
      (DeleteOutcome.submitFailed GatewayError.notFound, 0) :=
  delete_submit_failure demoSubmitFail GatewayError.notFound rfl

/-- Claim C1, settled against the code: with not-found on the first poll,
delete returns success after exactly one poll, as claimed; but with the
gateway returning the record on every poll for the whole window, delete
still returns success (after the 61st fetch, the one the expired context
fails at t = 30 s), not the ConfirmTimeout failure the claim states — the
select branch returning ctx.Err() is unreachable, because the same expired
context already makes the fetch fail and every fetch failure is taken as
confirmed deletion. -/
theorem delete_confirmation_behavior :
    DeleteNamespace demoInstantGoneGw = (DeleteOutcome.deleted, 1) ∧
    DeleteNamespace demoPersistentGw = (DeleteOutcome.deleted, 61) :=
  ⟨by decide, by decide⟩

/-- Claim C5 counterexample: at ttlHours = 2562048 the duration
multiplication wraps int64 (2562048 hours in nanoseconds exceeds 2^63), so
the stored expires_at is not the formatted now + ttlHours hours the claim
states. -/
theorem create_overflow_counterexample :
    getAnn (createCallOf demoFormat 0 "demo" 2562048 "alice" "infra").annotations
        "expires_at" ≠ demoFormat (0 + 2562048 * nsPerHour) := by decide

/-- Claim C5 as amended: create issues exactly one gateway call, carrying
the given name and exactly the three annotations entries owner, team and
expires_at — the formatted absolute timestamp now plus the wrapping 64-bit
duration of ttlHours hours, which equals now + ttlHours hours whenever the
product fits in int64 (the bounds below are ±2^63) — and returns the
gateway's outcome unchanged in either direction. -/
theorem create_single_call (format : Int → String) (now : Int)
    (gwCreate : CreateCall → Except GatewayError K8sNamespace)
    (name : String) (ttlHours : Int) (owner team : String) :
    (CreateNamespace format now gwCreate name ttlHours owner team).1 =
      [createCallOf format now name ttlHours owner team] ∧
    (createCallOf format now name ttlHours owner team).name = name ∧
    (createCallOf format now name ttlHours owner team).annotations =
      [("owner", owner), ("team", team),
       ("expires_at", format (now + durationOfHours ttlHours))] ∧
    (-9223372036854775808 ≤ ttlHours * nsPerHour →
      ttlHours * nsPerHour < 9223372036854775808 →
      durationOfHours ttlHours = ttlHours * nsPerHour) ∧
    (∀ r, gwCreate (createCallOf format now name ttlHours owner team) =
        Except.ok r →
      (CreateNamespace format now gwCreate name ttlHours owner team).2 =
        Except.ok ()) ∧
    (∀ e, gwCreate (createCallOf format now name ttlHours owner team) =
        Except.error e →
      (CreateNamespace format now gwCreate name ttlHours owner team).2 =
        Except.error e) := by
  refine ⟨?_, rfl, rfl, ?_, ?_, ?_⟩
  · cases hg : gwCreate (createCallOf format now name ttlHours owner team) <;>
      simp [CreateNamespace, hg]
  · intro h1 h2
    unfold durationOfHours wrapInt64
    omega
  · intro r hr
    simp only [CreateNamespace]
    rw [hr]
  · intro e he
    simp only [CreateNamespace]
    rw [he]

/-- Claim C5 witness at concrete inputs with an accepting gateway and a TTL
whose duration does not overflow. -/
theorem create_single_call_witness :
    (CreateNamespace demoFormat 0 demoGwCreate "demo" 2 "alice" "infra").1 =
      [createCallOf demoFormat 0 "demo" 2 "alice" "infra"] ∧
    durationOfHours 2 = 2 * nsPerHour ∧
    (CreateNamespace demoFormat 0 demoGwCreate "demo" 2 "alice" "infra").2 =
      Except.ok () := by
  have h := create_single_call demoFormat 0 demoGwCreate "demo" 2 "alice" "infra"
  exact ⟨h.1, h.2.2.2.1 (by decide) (by decide), h.2.2.2.2.1 _ rfl⟩

/-- Claim C9: the shim rejects every create request with an empty name,
owner or team or a non-positive TTL as a 400 validation error and never
reaches the manager's create on such a request; the manager's create itself
never rejects an input — on every input, well-formed or not, it issues its
single gateway call. -/
theorem shim_validation :
    (∀ req : CreateNamespaceRequest,
      req.name = "" ∨ req.owner = "" ∨ req.team = "" ∨ req.ttl ≤ 0 →
        (HandleCreateNamespaceRequest req).isValidationError = true ∧
        ∀ (n : String) (t : Int) (o tm : String),
          HandleCreateNamespaceRequest req ≠ ShimAction.invokeCreate n t o tm) ∧
    ∀ (format : Int → String) (now : Int)
      (gwCreate : CreateCall → Except GatewayError K8sNamespace)
      (name : String) (ttlHours : Int) (owner team : String),
      ((CreateNamespace format now gwCreate name ttlHours owner team).1).length
        = 1 := by
  constructor
  · intro req h
    unfold HandleCreateNamespaceRequest
    split_ifs with h1 h2 h3 h4
    · exact ⟨rfl, fun _ _ _ _ hc => ShimAction.noConfusion hc⟩
    · exact ⟨rfl, fun _ _ _ _ hc => ShimAction.noConfusion hc⟩
    · exact ⟨rfl, fun _ _ _ _ hc => ShimAction.noConfusion hc⟩
    · exact ⟨rfl, fun _ _ _ _ hc => ShimAction.noConfusion hc⟩
    · rcases h with h | h | h | h
      · exact absurd h h1
      · exact absurd h h2
      · exact absurd h h3
      · exact absurd h h4
  · intro format now gwCreate name ttlHours owner team
    cases hg : gwCreate (createCallOf format now name ttlHours owner team) <;>
      simp [CreateNamespace, hg]

/-- Claim C9 witness: a nameless request is rejected by the shim, and the
manager invoked directly with empty fields and a negative TTL still issues
its one gateway call. -/
theorem shim_validation_witness :
    (HandleCreateNamespaceRequest ⟨"", 5, "alice", "infra"⟩).isValidationError
      = true ∧
    ((CreateNamespace demoFormat 0 demoGwCreate "" (-3) "" "").1).length = 1 := by
  have h := shim_validation
  exact ⟨(h.1 ⟨"", 5, "alice", "infra"⟩ (Or.inl rfl)).1,
    h.2 demoFormat 0 demoGwCreate "" (-3) "" ""⟩
